import Mathlib

/-!
Verification of the mobile PDF viewer interaction and rendering core.

The numeric domain of the source (JS doubles used as exact pixel
coordinates and scale factors) is embedded as the rational numbers, so
every definition is executable and every comparison is decidable.
JS Math.min / Math.max / Math.abs become min / max / abs on rationals.

Source files embedded (repository zhayes/mobile_pdf_viewer):
- src/components/utils.ts : getBoundaryLimits (content-area variant),
  constrainTranslate, updateProgress
- src/components/touchHandlers.ts : TouchHandlers.handleTouchMove (drag
  branch and pinch branch), TouchHandlers.handleDoubleClick
- src/components/composables.ts : loadPDF event skeleton, transformStyle,
  the IntersectionObserver callback eviction branch (variant with the
  rendering-task cancel and the multi-page guard), the inertial-scroll
  animation loop of useTransform
- src/components/constants.ts : the numeric constants
-/

namespace MobilePDF

/-- Boundary limits record for panning, from types.ts (BoundaryLimits). -/
structure BoundaryLimits where
  minX : ℚ
  maxX : ℚ
  minY : ℚ
  maxY : ℚ
deriving Repr, DecidableEq

/-- Constant BOUNDARY_SCALE_THRESHOLD = 0.001 from constants.ts. -/
def BOUNDARY_SCALE_THRESHOLD : ℚ := 1/1000

/-- Constant SCALE_THRESHOLD = 0.2 from constants.ts. -/
def SCALE_THRESHOLD : ℚ := 1/5

/-- Constant ZOOM_SCALE = 2 from constants.ts. -/
def ZOOM_SCALE : ℚ := 2

/-- Geometry of the wrapper element as read by getBoundaryLimits:
clientWidth / clientHeight and the four CSS paddings parsed from the
computed style. -/
structure WrapperGeom where
  clientWidth : ℚ
  clientHeight : ℚ
  paddingLeft : ℚ
  paddingRight : ℚ
  paddingTop : ℚ
  paddingBottom : ℚ
deriving Repr, DecidableEq

/-- Geometry of the inner element as read by getBoundaryLimits:
clientWidth (base content width at scale 1) and scrollHeight (base
content height). -/
structure InnerGeom where
  clientWidth : ℚ
  scrollHeight : ℚ
deriving Repr, DecidableEq

/-- Fresh (cache-miss) computation of getBoundaryLimits from utils.ts:
content area = client size minus paddings; an axis whose scaled content
exceeds the content area gets the range
[contentArea - scaled - padding, padding], otherwise [0, 0]. -/
def getBoundaryLimitsFresh (w : WrapperGeom) (inner : InnerGeom)
    (scale boundaryPadding : ℚ) : BoundaryLimits :=
  let contentAreaWidth := w.clientWidth - w.paddingLeft - w.paddingRight
  let contentAreaHeight := w.clientHeight - w.paddingTop - w.paddingBottom
  let scaledWidth := inner.clientWidth * scale
  let scaledHeight := inner.scrollHeight * scale
  let x : ℚ × ℚ :=
    if scaledWidth > contentAreaWidth then
      (contentAreaWidth - scaledWidth - boundaryPadding, boundaryPadding)
    else
      (0, 0)
  let y : ℚ × ℚ :=
    if scaledHeight > contentAreaHeight then
      (contentAreaHeight - scaledHeight - boundaryPadding, boundaryPadding)
    else
      (0, 0)
  { minX := x.1, maxX := x.2, minY := y.1, maxY := y.2 }

/-- Embedding of getBoundaryLimits (utils.ts): missing refs give the
degenerate all-zero limits; a cached record is returned unchanged while
the scale moved by less than BOUNDARY_SCALE_THRESHOLD; otherwise the
limits are recomputed from the current geometry. -/
def getBoundaryLimits (wrapperRef : Option WrapperGeom) (innerRef : Option InnerGeom)
    (scale boundaryPadding : ℚ) (cachedLimits : Option BoundaryLimits)
    (lastScale : ℚ) : BoundaryLimits :=
  match wrapperRef, innerRef with
  | some w, some inner =>
    match cachedLimits with
    | some cached =>
      if |lastScale - scale| < BOUNDARY_SCALE_THRESHOLD then cached
      else getBoundaryLimitsFresh w inner scale boundaryPadding
    | none => getBoundaryLimitsFresh w inner scale boundaryPadding
  | _, _ => { minX := 0, maxX := 0, minY := 0, maxY := 0 }

/-- Embedding of constrainTranslate (utils.ts): clamp each coordinate
into the boundary range, written exactly as in the source as
max(min, min(max, v)). -/
def constrainTranslate (x y : ℚ) (boundaries : BoundaryLimits) : ℚ × ℚ :=
  (max boundaries.minX (min boundaries.maxX x),
   max boundaries.minY (min boundaries.maxY y))

/-- Transform state owned by useTransform: scale, translateX, translateY. -/
structure TransformState where
  scale : ℚ
  translateX : ℚ
  translateY : ℚ
deriving Repr, DecidableEq

/-- Container bounding rect offset as used by the touch handlers
(getBoundingClientRect().left / .top). -/
structure Rect where
  left : ℚ
  top : ℚ
deriving Repr, DecidableEq

/-- Rendered transform extracted from the transformStyle computed
property (composables.ts): the translate actually placed into the CSS
transform string and the rendered scale factor. -/
structure RenderedTransform where
  x : ℚ
  y : ℚ
  s : ℚ
deriving Repr, DecidableEq

/-- Embedding of the transformStyle computed property (composables.ts):
x and y render as the stored translate only when scale is above 1 and as
0 otherwise, and the rendered scale is max(scale, 1). -/
def transformStyle (st : TransformState) : RenderedTransform :=
  { x := if st.scale > 1 then st.translateX else 0
  , y := if st.scale > 1 then st.translateY else 0
  , s := max st.scale 1 }

/-- Pinch-relevant configuration fields of MobilePDFViewerConfig. -/
structure PinchConfig where
  pinchSensitivity : ℚ
  minScale : ℚ
  maxScale : ℚ
deriving Repr, DecidableEq

/-- TouchHandlers fields read and written by the pinch branch of
handleTouchMove: the current transform plus the stored lastDistance
baseline. -/
structure PinchState where
  scale : ℚ
  translateX : ℚ
  translateY : ℚ
  lastDistance : ℚ
deriving Repr, DecidableEq

/-- Result of one pinch move step: the applied scale, the translate
computed before boundary constraining (preX, preY), the translate after
constraining (appliedX, appliedY), the scale-change events emitted by
the step, and the updated lastDistance baseline. -/
structure PinchMoveResult where
  scale : ℚ
  preX : ℚ
  preY : ℚ
  appliedX : ℚ
  appliedY : ℚ
  scaleChangeEvents : List ℚ
  lastDistance : ℚ
deriving Repr, DecidableEq

/-- Embedding of the two-finger branch of TouchHandlers.handleTouchMove
(touchHandlers.ts). Arguments: distance is the new inter-finger
distance, (centerX, centerY) the touch midpoint in client coordinates,
rect the wrapper bounding rect, and constrain stands for the
constrainTranslateForRefs action supplied by useTransform. A zero
stored baseline only records the new distance; otherwise the damped
incremental ratio is applied, clamped into [minScale, maxScale], the
translate is recomputed around the midpoint, constrained and applied,
a scale-change event is emitted and the baseline becomes the latest
distance. -/
def handleTouchMovePinch (cfg : PinchConfig) (st : PinchState)
    (distance centerX centerY : ℚ) (rect : Rect)
    (constrain : ℚ → ℚ → ℚ × ℚ) : PinchMoveResult :=
  if st.lastDistance = 0 then
    { scale := st.scale, preX := st.translateX, preY := st.translateY
    , appliedX := st.translateX, appliedY := st.translateY
    , scaleChangeEvents := [], lastDistance := distance }
  else
    let scaleChange := distance / st.lastDistance
    let dampedScaleChange := 1 + (scaleChange - 1) * cfg.pinchSensitivity
    let newScale := max cfg.minScale (min cfg.maxScale (st.scale * dampedScaleChange))
    let cX := centerX - rect.left
    let cY := centerY - rect.top
    let scaleRatio := newScale / st.scale
    let newX := cX - (cX - st.translateX) * scaleRatio
    let newY := cY - (cY - st.translateY) * scaleRatio
    let c := constrain newX newY
    { scale := newScale, preX := newX, preY := newY
    , appliedX := c.1, appliedY := c.2
    , scaleChangeEvents := [newScale], lastDistance := distance }

/-- Embedding of the single-finger branch of TouchHandlers.handleTouchMove
(touchHandlers.ts lines 67-81): the proposed translate is the touch
position minus the recorded anchor offset; only when the current scale
exceeds 1 is the constrained translate applied (with the scale passed
through unchanged); at scale at most 1 the branch does nothing. -/
def handleTouchMoveDrag (st : TransformState) (startX startY touchX touchY : ℚ)
    (constrain : ℚ → ℚ → ℚ × ℚ) : TransformState :=
  let newX := touchX - startX
  let newY := touchY - startY
  if st.scale > 1 then
    let c := constrain newX newY
    { scale := st.scale, translateX := c.1, translateY := c.2 }
  else
    st

/-- Result of a double-tap: the applied transform state, the translate
computed before constraining in the zoom-in branch, and the
scale-change events emitted. -/
structure DoubleClickResult where
  state : TransformState
  preX : ℚ
  preY : ℚ
  scaleChangeEvents : List ℚ
deriving Repr, DecidableEq

/-- Embedding of TouchHandlers.handleDoubleClick (touchHandlers.ts lines
186-222). When the current scale is within SCALE_THRESHOLD of 1, it
zooms to ZOOM_SCALE around the tap point with
newX = centerX - (centerX - translateX) * newScale, constrains the
result and emits a scale-change with the new scale; otherwise it calls
resetPosition, which applies (1, 0, 0) and emits scale-change 1. -/
def handleDoubleClick (st : TransformState) (tapX tapY : ℚ) (rect : Rect)
    (constrain : ℚ → ℚ → ℚ × ℚ) : DoubleClickResult :=
  let isNormalScale := |st.scale - 1| < SCALE_THRESHOLD
  if isNormalScale then
    let centerX := tapX - rect.left
    let centerY := tapY - rect.top
    let newScale := ZOOM_SCALE
    let newX := centerX - (centerX - st.translateX) * newScale
    let newY := centerY - (centerY - st.translateY) * newScale
    let c := constrain newX newY
    { state := { scale := newScale, translateX := c.1, translateY := c.2 }
    , preX := newX, preY := newY
    , scaleChangeEvents := [newScale] }
  else
    { state := { scale := 1, translateX := 0, translateY := 0 }
    , preX := 0, preY := 0
    , scaleChangeEvents := [1] }

/-- Render status of a page slot (types.ts CanvasItem.renderStatus). -/
inductive RenderStatus where
  | pending
  | loading
  | complete
deriving Repr, DecidableEq

/-- Page slot record (types.ts CanvasItem). The canvas surface is
abstracted to an identity number; attached records whether the mount
target currently contains the canvas (entry.target.contains(canvas));
renderingTask is the handle of the in-flight rasterization task. -/
structure CanvasItem where
  canvas : Option Nat
  attached : Bool
  renderStatus : RenderStatus
  renderingTask : Option Nat
deriving Repr, DecidableEq

/-- Embedding of the non-intersecting branch of the IntersectionObserver
callback set up by loadPDF (composables variant with inertial scroll):
when the slot at the given index exists, has a canvas, the list holds
more than one slot and the mount target still contains the canvas, the
in-flight task is cancelled and cleared, the canvas is detached and
discarded and the status is reset to pending; otherwise nothing
changes. A missing index models findIndex returning -1. -/
def evictOnLeave (items : List CanvasItem) (i : Nat) : List CanvasItem :=
  match items[i]? with
  | none => items
  | some item =>
    if item.canvas.isSome ∧ 1 < items.length ∧ item.attached = true then
      items.set i { canvas := none, attached := false
                  , renderStatus := .pending, renderingTask := none }
    else
      items

/-- Events emitted through the component emit function during a
document load (types.ts MobilePDFViewerEmits, scale-change aside). -/
inductive LoadEvent where
  | loadStart
  | loadProgress (progress : ℚ)
  | loadComplete (pageCount : Nat)
  | loadError
deriving Repr, DecidableEq

/-- Outcome of the awaited document-engine calls inside the try block of
loadPDF: either the document resolves with its page count or some
awaited step rejects. Every rejection inside the try block reaches the
same catch clause. -/
inductive LoadOutcome where
  | success (numPages : Nat)
  | failure
deriving Repr, DecidableEq

/-- Observable result of one loadPDF call: the events emitted by the
call itself in order, the final values of the isLoading flag and
loadingProgress ref (both written in the finally clause), whether the
call re-threw the error to its caller, and the number of page slots in
canvasList when the call finished. -/
structure LoadResult where
  events : List LoadEvent
  isLoading : Bool
  loadingProgress : ℚ
  thrown : Bool
  slotCount : Nat
deriving Repr, DecidableEq

/-- Embedding of the loadPDF control flow (composables.ts lines 203-286).
On success it emits load-start then, after creating one pending slot
per page and installing the observer, load-complete with the page
count; page rasterization and progress reporting happen later in
observer callbacks. On failure the catch clause emits load-error once
and re-throws; the finally clause always clears isLoading and resets
loadingProgress. -/
def loadPDF : LoadOutcome → LoadResult
  | .success n =>
    { events := [.loadStart, .loadComplete n]
    , isLoading := false, loadingProgress := 0
    , thrown := false, slotCount := n }
  | .failure =>
    { events := [.loadStart, .loadError]
    , isLoading := false, loadingProgress := 0
    , thrown := true, slotCount := 0 }

/-- Embedding of updateProgress (utils.ts lines 82-89): the progress ref
stores the percentage clamped into [0, 100] while the emitted
load-progress event carries the raw fraction. -/
def updateProgress (progress : ℚ) : ℚ × LoadEvent :=
  (min (max (progress * 100) 0) 100, .loadProgress progress)

/-- Progress events produced by the IntersectionObserver callbacks as
pages render: rendering page index i (0-based) of an n-page document
emits load-progress (i + 1) / n after the page rasterizes. The visit
list is the order in which pending pages become visible and render. -/
def renderVisitEvents (n : Nat) (visits : List Nat) : List LoadEvent :=
  visits.map (fun (i : Nat) => (updateProgress (((i : ℚ) + 1) / (n : ℚ))).2)

/-- Full emission trace of loading a document of n pages whose pages
then render in the given visit order: the loadPDF call emits its events
synchronously, and every observer-driven render appends its progress
event afterwards. -/
def documentLoadTrace (n : Nat) (visits : List Nat) : List LoadEvent :=
  (loadPDF (.success n)).events ++ renderVisitEvents n visits

/-- Decides whether some load-progress event occurs after a
load-complete event in a trace. -/
def anyProgressAfterComplete : List LoadEvent → Bool
  | [] => false
  | .loadComplete _ :: rest =>
    rest.any (fun e => match e with | .loadProgress _ => true | _ => false)
      || anyProgressAfterComplete rest
  | _ :: rest => anyProgressAfterComplete rest

/-- State of the inertial-scroll animation of useTransform: the current
translate, the per-frame velocity and whether a next animation frame is
scheduled. -/
structure InertiaState where
  x : ℚ
  y : ℚ
  vx : ℚ
  vy : ℚ
  running : Bool
deriving Repr, DecidableEq

/-- Embedding of one animationLoop iteration of useTransform (the
composables variant with inertial scroll): the proposed position is the
current position plus the velocity, the position is clamped through
constrainTranslate against the boundary limits (constant here because
the geometry and the scale do not change during the animation), the
velocity of any axis the clamp altered is zeroed, the remaining
velocity is multiplied by dampingFactor, and once both velocity
components fall below 0.1 in absolute value stopInertialScroll cancels
the next frame and zeroes the velocity. A state with no scheduled frame
is left unchanged. -/
def animationStep (dampingFactor : ℚ) (b : BoundaryLimits)
    (s : InertiaState) : InertiaState :=
  if s.running then
    let newX := s.x + s.vx
    let newY := s.y + s.vy
    let c := constrainTranslate newX newY b
    let vx1 := if c.1 ≠ newX then 0 else s.vx
    let vy1 := if c.2 ≠ newY then 0 else s.vy
    let vx2 := vx1 * dampingFactor
    let vy2 := vy1 * dampingFactor
    if |vx2| < 1/10 ∧ |vy2| < 1/10 then
      { x := c.1, y := c.2, vx := 0, vy := 0, running := false }
    else
      { x := c.1, y := c.2, vx := vx2, vy := vy2, running := true }
  else
    s

/-- Embedding of startInertialScroll (useTransform): any previous
animation is stopped, the velocity is set to 25 times the measured
release velocity, and an animation frame is scheduled only when a raw
velocity component exceeds 0.1 in absolute value. -/
def startInertialScroll (x y vx vy : ℚ) : InertiaState :=
  { x := x, y := y, vx := vx * 25, vy := vy * 25
  , running := |vx| > 1/10 ∨ |vy| > 1/10 }

/-! Helper lemmas about the clamp pattern max lo (min hi v) used by
constrainTranslate. -/

lemma clamp_le_bounds (lo hi v : ℚ) (h : lo ≤ hi) :
    lo ≤ max lo (min hi v) ∧ max lo (min hi v) ≤ hi :=
  ⟨le_max_left _ _, max_le h (min_le_left _ _)⟩

lemma clamp_idem (lo hi v : ℚ) (h : lo ≤ hi) :
    max lo (min hi (max lo (min hi v))) = max lo (min hi v) := by
  have h1 := (clamp_le_bounds lo hi v h).1
  have h2 := (clamp_le_bounds lo hi v h).2
  rw [min_eq_right h2, max_eq_right h1]

/-- C8: for every boundary record with minX ≤ maxX and minY ≤ maxY and
every input point, constrainTranslate is idempotent and its result lies
within [minX, maxX] × [minY, maxY]. -/
theorem constrainTranslate_idem (b : BoundaryLimits) (x y : ℚ)
    (hx : b.minX ≤ b.maxX) (hy : b.minY ≤ b.maxY) :
    constrainTranslate (constrainTranslate x y b).1 (constrainTranslate x y b).2 b
      = constrainTranslate x y b ∧
    b.minX ≤ (constrainTranslate x y b).1 ∧ (constrainTranslate x y b).1 ≤ b.maxX ∧
    b.minY ≤ (constrainTranslate x y b).2 ∧ (constrainTranslate x y b).2 ≤ b.maxY := by
  unfold constrainTranslate
  exact ⟨Prod.ext (clamp_idem _ _ _ hx) (clamp_idem _ _ _ hy),
    (clamp_le_bounds _ _ _ hx).1, (clamp_le_bounds _ _ _ hx).2,
    (clamp_le_bounds _ _ _ hy).1, (clamp_le_bounds _ _ _ hy).2⟩

/-- Witness for C8 at the boundary record (-450, 50, -1250, 50) and the
point (100, -2000). -/
theorem constrainTranslate_idem_witness :
    constrainTranslate (constrainTranslate 100 (-2000) ⟨-450, 50, -1250, 50⟩).1
        (constrainTranslate 100 (-2000) ⟨-450, 50, -1250, 50⟩).2 ⟨-450, 50, -1250, 50⟩
      = constrainTranslate 100 (-2000) ⟨-450, 50, -1250, 50⟩ ∧
    (-450 : ℚ) ≤ (constrainTranslate 100 (-2000) ⟨-450, 50, -1250, 50⟩).1 ∧
    (constrainTranslate 100 (-2000) ⟨-450, 50, -1250, 50⟩).1 ≤ 50 ∧
    (-1250 : ℚ) ≤ (constrainTranslate 100 (-2000) ⟨-450, 50, -1250, 50⟩).2 ∧
    (constrainTranslate 100 (-2000) ⟨-450, 50, -1250, 50⟩).2 ≤ 50 :=
  constrainTranslate_idem ⟨-450, 50, -1250, 50⟩ 100 (-2000) (by norm_num) (by norm_num)

lemma getBoundaryLimitsFresh_minX (w : WrapperGeom) (inner : InnerGeom)
    (scale p : ℚ) :
    (getBoundaryLimitsFresh w inner scale p).minX =
      if inner.clientWidth * scale > w.clientWidth - w.paddingLeft - w.paddingRight
      then (w.clientWidth - w.paddingLeft - w.paddingRight) - inner.clientWidth * scale - p
      else 0 := by
  unfold getBoundaryLimitsFresh
  dsimp only
  split <;> rfl

lemma getBoundaryLimitsFresh_maxX (w : WrapperGeom) (inner : InnerGeom)
    (scale p : ℚ) :
    (getBoundaryLimitsFresh w inner scale p).maxX =
      if inner.clientWidth * scale > w.clientWidth - w.paddingLeft - w.paddingRight
      then p else 0 := by
  unfold getBoundaryLimitsFresh
  dsimp only
  split <;> rfl

lemma getBoundaryLimitsFresh_minY (w : WrapperGeom) (inner : InnerGeom)
    (scale p : ℚ) :
    (getBoundaryLimitsFresh w inner scale p).minY =
      if inner.scrollHeight * scale > w.clientHeight - w.paddingTop - w.paddingBottom
      then (w.clientHeight - w.paddingTop - w.paddingBottom) - inner.scrollHeight * scale - p
      else 0 := by
  unfold getBoundaryLimitsFresh
  dsimp only
  split <;> rfl

lemma getBoundaryLimitsFresh_maxY (w : WrapperGeom) (inner : InnerGeom)
    (scale p : ℚ) :
    (getBoundaryLimitsFresh w inner scale p).maxY =
      if inner.scrollHeight * scale > w.clientHeight - w.paddingTop - w.paddingBottom
      then p else 0 := by
  unfold getBoundaryLimitsFresh
  dsimp only
  split <;> rfl

lemma getBoundaryLimits_none_cache (w : WrapperGeom) (inner : InnerGeom)
    (scale p lastScale : ℚ) :
    getBoundaryLimits (some w) (some inner) scale p none lastScale
      = getBoundaryLimitsFresh w inner scale p := rfl

/-- C3: for every container and content geometry and every scale, the
freshly computed boundary limits satisfy: on an axis whose scaled
content fits inside the container content area, min and max are both 0;
otherwise min is contentArea - scaledSize - boundaryPadding and max is
boundaryPadding. -/
theorem getBoundaryLimits_axis_spec (w : WrapperGeom) (inner : InnerGeom)
    (scale boundaryPadding lastScale : ℚ) :
    (inner.clientWidth * scale ≤ w.clientWidth - w.paddingLeft - w.paddingRight →
      (getBoundaryLimits (some w) (some inner) scale boundaryPadding none lastScale).minX = 0 ∧
      (getBoundaryLimits (some w) (some inner) scale boundaryPadding none lastScale).maxX = 0) ∧
    (w.clientWidth - w.paddingLeft - w.paddingRight < inner.clientWidth * scale →
      (getBoundaryLimits (some w) (some inner) scale boundaryPadding none lastScale).minX
        = (w.clientWidth - w.paddingLeft - w.paddingRight)
            - inner.clientWidth * scale - boundaryPadding ∧
      (getBoundaryLimits (some w) (some inner) scale boundaryPadding none lastScale).maxX
        = boundaryPadding) ∧
    (inner.scrollHeight * scale ≤ w.clientHeight - w.paddingTop - w.paddingBottom →
      (getBoundaryLimits (some w) (some inner) scale boundaryPadding none lastScale).minY = 0 ∧
      (getBoundaryLimits (some w) (some inner) scale boundaryPadding none lastScale).maxY = 0) ∧
    (w.clientHeight - w.paddingTop - w.paddingBottom < inner.scrollHeight * scale →
      (getBoundaryLimits (some w) (some inner) scale boundaryPadding none lastScale).minY
        = (w.clientHeight - w.paddingTop - w.paddingBottom)
            - inner.scrollHeight * scale - boundaryPadding ∧
      (getBoundaryLimits (some w) (some inner) scale boundaryPadding none lastScale).maxY
        = boundaryPadding) := by
  rw [getBoundaryLimits_none_cache]
  refine ⟨fun h => ⟨?_, ?_⟩, fun h => ⟨?_, ?_⟩, fun h => ⟨?_, ?_⟩, fun h => ⟨?_, ?_⟩⟩
  · rw [getBoundaryLimitsFresh_minX, if_neg (not_lt.mpr h)]
  · rw [getBoundaryLimitsFresh_maxX, if_neg (not_lt.mpr h)]
  · rw [getBoundaryLimitsFresh_minX, if_pos h]
  · rw [getBoundaryLimitsFresh_maxX, if_pos h]
  · rw [getBoundaryLimitsFresh_minY, if_neg (not_lt.mpr h)]
  · rw [getBoundaryLimitsFresh_maxY, if_neg (not_lt.mpr h)]
  · rw [getBoundaryLimitsFresh_minY, if_pos h]
  · rw [getBoundaryLimitsFresh_maxY, if_pos h]

/-- Witness for C3: a 400 by 800 content area (client 420 by 800 with 10
px horizontal paddings), base content 400 by 1000, scale 2 and padding
50 gives panning ranges on both axes; the same geometry at scale 1/2
gives the all-zero limits. -/
theorem getBoundaryLimits_axis_spec_witness :
    (getBoundaryLimits (some ⟨420, 800, 10, 10, 0, 0⟩) (some ⟨400, 1000⟩) 2 50 none 0).minX
      = (420 - 10 - 10) - 400 * 2 - 50 ∧
    (getBoundaryLimits (some ⟨420, 800, 10, 10, 0, 0⟩) (some ⟨400, 1000⟩) 2 50 none 0).maxX
      = 50 ∧
    (getBoundaryLimits (some ⟨420, 800, 10, 10, 0, 0⟩) (some ⟨400, 1000⟩) (1/2) 50 none 0).minX
      = 0 ∧
    (getBoundaryLimits (some ⟨420, 800, 10, 10, 0, 0⟩) (some ⟨400, 1000⟩) (1/2) 50 none 0).maxX
      = 0 := by
  obtain ⟨-, h2, -, -⟩ :=
    getBoundaryLimits_axis_spec ⟨420, 800, 10, 10, 0, 0⟩ ⟨400, 1000⟩ 2 50 0
  obtain ⟨h1, -, -, -⟩ :=
    getBoundaryLimits_axis_spec ⟨420, 800, 10, 10, 0, 0⟩ ⟨400, 1000⟩ (1/2) 50 0
  exact ⟨(h2 (by norm_num)).1, (h2 (by norm_num)).2,
    (h1 (by norm_num)).1, (h1 (by norm_num)).2⟩

/-- C10: for every transform state, the transformStyle computed property
renders the scale as max(scale, 1), never renders a scale below 1, and
renders the translate as (0, 0) whenever the internal scale is at
most 1. -/
theorem transformStyle_spec (st : TransformState) :
    (transformStyle st).s = max st.scale 1 ∧
    1 ≤ (transformStyle st).s ∧
    (st.scale ≤ 1 →
      (transformStyle st).x = 0 ∧ (transformStyle st).y = 0) := by
  refine ⟨rfl, le_max_right _ _, fun h => ⟨?_, ?_⟩⟩ <;>
    simp [transformStyle, not_lt.mpr h]

/-- Witness for C10 at internal scale 1/2 with a nonzero stored
translate. -/
theorem transformStyle_spec_witness :
    (transformStyle ⟨1/2, 7, -3⟩).s = max (1/2) 1 ∧
    1 ≤ (transformStyle ⟨1/2, 7, -3⟩).s ∧
    ((transformStyle ⟨1/2, 7, -3⟩).x = 0 ∧ (transformStyle ⟨1/2, 7, -3⟩).y = 0) :=
  ⟨(transformStyle_spec ⟨1/2, 7, -3⟩).1, (transformStyle_spec ⟨1/2, 7, -3⟩).2.1,
    (transformStyle_spec ⟨1/2, 7, -3⟩).2.2 (by norm_num)⟩

/-- C9: for every single-finger move while dragging, the handler leaves
the whole transform state unchanged when the current scale is at most
1, and applies the constrained new translate with the scale passed
through unchanged only when the scale exceeds 1. -/
theorem handleTouchMoveDrag_spec (st : TransformState)
    (startX startY touchX touchY : ℚ) (constrain : ℚ → ℚ → ℚ × ℚ) :
    (st.scale ≤ 1 →
      handleTouchMoveDrag st startX startY touchX touchY constrain = st) ∧
    (1 < st.scale →
      handleTouchMoveDrag st startX startY touchX touchY constrain
        = { scale := st.scale
          , translateX := (constrain (touchX - startX) (touchY - startY)).1
          , translateY := (constrain (touchX - startX) (touchY - startY)).2 }) := by
  constructor <;> intro h <;> unfold handleTouchMoveDrag <;> dsimp only
  · rw [if_neg (not_lt.mpr h)]
  · rw [if_pos h]

/-- Witness for C9: at scale 1 the drag step is the identity on the
state, at scale 2 it applies the constrained translate. -/
theorem handleTouchMoveDrag_spec_witness :
    handleTouchMoveDrag ⟨1, 5, 6⟩ 1 2 30 40 (fun x y => (x, y)) = ⟨1, 5, 6⟩ ∧
    handleTouchMoveDrag ⟨2, 5, 6⟩ 1 2 30 40 (fun x y => (x, y))
      = { scale := 2
        , translateX := ((fun (x : ℚ) (y : ℚ) => (x, y)) (30 - 1) (40 - 2)).1
        , translateY := ((fun (x : ℚ) (y : ℚ) => (x, y)) (30 - 1) (40 - 2)).2 } :=
  ⟨(handleTouchMoveDrag_spec ⟨1, 5, 6⟩ 1 2 30 40 _).1 (by norm_num),
   (handleTouchMoveDrag_spec ⟨2, 5, 6⟩ 1 2 30 40 _).2 (by norm_num)⟩

/-- C4: for every pinch move with a positive stored baseline distance
and a positive current scale, the step applies
newScale = clamp(scale * (1 + (distance / baseline - 1) * pinchSensitivity),
minScale, maxScale), computes the pre-constraint translate as
newX = cx - (cx - oldX) * (newScale / scale) around the container
relative midpoint (cx, cy), emits one scale-change event carrying the
new scale, and updates the baseline to the latest distance. -/
theorem handleTouchMovePinch_spec (cfg : PinchConfig) (st : PinchState)
    (distance centerX centerY : ℚ) (rect : Rect) (constrain : ℚ → ℚ → ℚ × ℚ)
    (hd : 0 < st.lastDistance) (_hs : 0 < st.scale) :
    (handleTouchMovePinch cfg st distance centerX centerY rect constrain).scale
      = max cfg.minScale (min cfg.maxScale
          (st.scale * (1 + (distance / st.lastDistance - 1) * cfg.pinchSensitivity))) ∧
    (handleTouchMovePinch cfg st distance centerX centerY rect constrain).preX
      = (centerX - rect.left)
          - ((centerX - rect.left) - st.translateX)
            * ((handleTouchMovePinch cfg st distance centerX centerY rect constrain).scale
                / st.scale) ∧
    (handleTouchMovePinch cfg st distance centerX centerY rect constrain).preY
      = (centerY - rect.top)
          - ((centerY - rect.top) - st.translateY)
            * ((handleTouchMovePinch cfg st distance centerX centerY rect constrain).scale
                / st.scale) ∧
    (handleTouchMovePinch cfg st distance centerX centerY rect constrain).scaleChangeEvents
      = [(handleTouchMovePinch cfg st distance centerX centerY rect constrain).scale] ∧
    (handleTouchMovePinch cfg st distance centerX centerY rect constrain).lastDistance
      = distance := by
  have hne : ¬ st.lastDistance = 0 := ne_of_gt hd
  unfold handleTouchMovePinch
  rw [if_neg hne]
  exact ⟨rfl, rfl, rfl, rfl, rfl⟩

/-- Witness for C4: baseline 100, new distance 150, sensitivity 3/5,
scale range [1, 4], starting transform (1, 20, 30), midpoint (60, 80)
over a rect at (5, 5). -/
theorem handleTouchMovePinch_spec_witness :
    (handleTouchMovePinch ⟨3/5, 1, 4⟩ ⟨1, 20, 30, 100⟩ 150 60 80 ⟨5, 5⟩
        (fun x y => (x, y))).scale
      = max 1 (min 4 (1 * (1 + (150 / 100 - 1) * (3/5)))) ∧
    (handleTouchMovePinch ⟨3/5, 1, 4⟩ ⟨1, 20, 30, 100⟩ 150 60 80 ⟨5, 5⟩
        (fun x y => (x, y))).preX
      = (60 - 5)
          - ((60 - 5) - 20)
            * ((handleTouchMovePinch ⟨3/5, 1, 4⟩ ⟨1, 20, 30, 100⟩ 150 60 80 ⟨5, 5⟩
                  (fun x y => (x, y))).scale / 1) ∧
    (handleTouchMovePinch ⟨3/5, 1, 4⟩ ⟨1, 20, 30, 100⟩ 150 60 80 ⟨5, 5⟩
        (fun x y => (x, y))).scaleChangeEvents
      = [(handleTouchMovePinch ⟨3/5, 1, 4⟩ ⟨1, 20, 30, 100⟩ 150 60 80 ⟨5, 5⟩
            (fun x y => (x, y))).scale] ∧
    (handleTouchMovePinch ⟨3/5, 1, 4⟩ ⟨1, 20, 30, 100⟩ 150 60 80 ⟨5, 5⟩
        (fun x y => (x, y))).lastDistance = 150 := by
  obtain ⟨h1, h2, h3, h4, h5⟩ :=
    handleTouchMovePinch_spec ⟨3/5, 1, 4⟩ ⟨1, 20, 30, 100⟩ 150 60 80 ⟨5, 5⟩
      (fun x y => (x, y)) (by norm_num) (by norm_num)
  exact ⟨h1, h2, h4, h5⟩

/-- C1: the IntersectionObserver eviction branch never evicts the slot
of a single-page document (the slot list, hence its canvas, attachment
and status, stays unchanged), it does evict a multi-page slot whose
canvas is attached (cancelling the task, detaching and discarding the
canvas and resetting the status to pending), and any change it makes at
all implies the document has more than one page slot. -/
theorem evictOnLeave_spec (items : List CanvasItem) (i : Nat) (item : CanvasItem)
    (h : items[i]? = some item) :
    (items.length = 1 → evictOnLeave items i = items) ∧
    (items.length = 1 → (evictOnLeave items i)[i]? = some item) ∧
    (1 < items.length → item.canvas.isSome → item.attached = true →
      (evictOnLeave items i)[i]?
        = some { canvas := none, attached := false
               , renderStatus := .pending, renderingTask := none }) ∧
    (evictOnLeave items i ≠ items → 1 < items.length) := by
  have hi : i < items.length := by
    rcases List.getElem?_eq_some.mp h with ⟨hlt, -⟩
    exact hlt
  refine ⟨?_, ?_, ?_, ?_⟩
  · intro hone
    unfold evictOnLeave
    rw [h]
    dsimp only
    rw [if_neg]
    rintro ⟨-, hlen, -⟩
    omega
  · intro hone
    unfold evictOnLeave
    rw [h]
    dsimp only
    rw [if_neg]
    · exact h
    · rintro ⟨-, hlen, -⟩
      omega
  · intro hlen hcanvas hatt
    unfold evictOnLeave
    rw [h]
    dsimp only
    rw [if_pos ⟨hcanvas, hlen, hatt⟩]
    exact List.getElem?_set_eq_of_lt _ hi
  · intro hchanged
    by_contra hlen
    apply hchanged
    unfold evictOnLeave
    rw [h]
    dsimp only
    rw [if_neg]
    rintro ⟨-, hlen2, -⟩
    exact hlen hlen2

/-- Witness for C1: a two-slot list evicts its attached complete first
slot, while the same slot as the only member of a one-slot list is left
untouched. -/
theorem evictOnLeave_spec_witness :
    evictOnLeave [⟨some 1, true, .complete, some 7⟩] 0
      = [⟨some 1, true, .complete, some 7⟩] ∧
    (evictOnLeave [⟨some 1, true, .complete, some 7⟩,
        ⟨none, false, .pending, none⟩] 0)[0]?
      = some { canvas := none, attached := false
             , renderStatus := .pending, renderingTask := none } :=
  ⟨(evictOnLeave_spec [⟨some 1, true, .complete, some 7⟩] 0
      ⟨some 1, true, .complete, some 7⟩ rfl).1 rfl,
   (evictOnLeave_spec [⟨some 1, true, .complete, some 7⟩,
        ⟨none, false, .pending, none⟩] 0
      ⟨some 1, true, .complete, some 7⟩ rfl).2.2.1 (by decide) rfl rfl⟩

/-- C2 counterexample: on a failing document source, loadPDF re-throws
the error after emitting load-error, so the failure does propagate out
of the core to the caller, contradicting the claim that it never does. -/
theorem loadPDF_failure_counterexample :
    ¬ ((loadPDF .failure).thrown = false) := by decide

/-- C2 amended: on a failing document source, loadPDF emits load-error
exactly once (its event trace is load-start followed by load-error),
the finally clause clears the loading flag and resets the progress, but
the catch clause re-throws the error, so the rejection propagates to
the caller of loadPDF. -/
theorem loadPDF_failure_amended :
    (loadPDF .failure).events = [.loadStart, .loadError] ∧
    ((loadPDF .failure).events.filter
        (fun e => match e with | .loadError => true | _ => false)).length = 1 ∧
    (loadPDF .failure).isLoading = false ∧
    (loadPDF .failure).loadingProgress = 0 ∧
    (loadPDF .failure).thrown = true := by decide

/-- C7 counterexample: loading a three-page document whose pages then
render in order emits load-progress events only after load-complete,
because loadPDF emits load-complete synchronously right after
installing the observer while every progress report happens inside a
later observer callback; this refutes the claimed order load-start,
then the progress events, then load-complete. -/
theorem loadTrace_counterexample :
    anyProgressAfterComplete (documentLoadTrace 3 [0, 1, 2]) = true := by decide

/-- C7 amended: during a single successful document load the call emits
load-start and then load-complete with the page count; the
load-progress events are emitted afterwards by the observer callbacks
as pages render, and when the pages render in document order the
emitted fractions are monotonically non-decreasing within [0, 1];
getPageCount, which returns the slot-list length, equals the page count
once the slots are created. -/
theorem loadTrace_amended (n : Nat) (hn : 0 < n) :
    documentLoadTrace n (List.range n)
      = [.loadStart, .loadComplete n]
          ++ (List.range n).map (fun i => .loadProgress (((i : ℚ) + 1) / (n : ℚ))) ∧
    (∀ i : Nat, i < n →
      0 ≤ ((i : ℚ) + 1) / (n : ℚ) ∧ ((i : ℚ) + 1) / (n : ℚ) ≤ 1) ∧
    (∀ i j : Nat, i ≤ j →
      ((i : ℚ) + 1) / (n : ℚ) ≤ ((j : ℚ) + 1) / (n : ℚ)) ∧
    (loadPDF (.success n)).slotCount = n := by
  have hn0 : (0 : ℚ) < (n : ℚ) := by exact_mod_cast hn
  refine ⟨rfl, fun i hi => ⟨?_, ?_⟩, fun i j hij => ?_, rfl⟩
  · positivity
  · rw [div_le_one hn0]
    have : (i : ℚ) + 1 ≤ (n : ℚ) := by exact_mod_cast Nat.succ_le_of_lt hi
    linarith
  · apply div_le_div_of_nonneg_right ?_ hn0.le
    have : (i : ℚ) ≤ (j : ℚ) := by exact_mod_cast hij
    linarith

/-- Witness for C7 amended at a three-page document rendered in order. -/
theorem loadTrace_amended_witness :
    documentLoadTrace 3 (List.range 3)
      = [.loadStart, .loadComplete 3]
          ++ (List.range 3).map (fun i => .loadProgress (((i : ℚ) + 1) / (3 : ℚ))) ∧
    (0 ≤ (((1 : Nat) : ℚ) + 1) / ((3 : Nat) : ℚ) ∧
      (((1 : Nat) : ℚ) + 1) / ((3 : Nat) : ℚ) ≤ 1) ∧
    (((0 : Nat) : ℚ) + 1) / ((3 : Nat) : ℚ) ≤ (((2 : Nat) : ℚ) + 1) / ((3 : Nat) : ℚ) ∧
    (loadPDF (.success 3)).slotCount = 3 := by
  obtain ⟨h1, h2, h3, h4⟩ := loadTrace_amended 3 (by norm_num)
  exact ⟨h1, h2 1 (by norm_num), h3 0 2 (by norm_num), h4⟩

/-- C6 counterexample: at scale 11/10 (within 0.2 of 1) a double-tap at
x = 10 over an unclipped boundary applies scale 2 with
newX = cX - (cX - oldX) * 2, so the document-space point under the tap
moves from 100/11 to 10; the code multiplies by the new scale instead
of the ratio newScale / oldScale, hence the tapped point is not
preserved and the claimed midpoint-preserving zoom is refuted. -/
theorem handleDoubleClick_counterexample :
    |(11/10 : ℚ) - 1| < SCALE_THRESHOLD ∧
    (handleDoubleClick ⟨11/10, 0, 0⟩ 10 0 ⟨0, 0⟩ (fun x y => (x, y))).state.scale = 2 ∧
    ¬ ((10 - (handleDoubleClick ⟨11/10, 0, 0⟩ 10 0 ⟨0, 0⟩
            (fun x y => (x, y))).state.translateX)
          / (handleDoubleClick ⟨11/10, 0, 0⟩ 10 0 ⟨0, 0⟩
            (fun x y => (x, y))).state.scale
        = (10 - 0) / (11/10 : ℚ)) := by
  have hcond : |(11/10 : ℚ) - 1| < SCALE_THRESHOLD := by
    rw [abs_of_nonneg (by norm_num)]
    simp only [SCALE_THRESHOLD]
    norm_num
  refine ⟨hcond, ?_, ?_⟩
  · unfold handleDoubleClick
    dsimp only
    rw [if_pos hcond]
    rfl
  · unfold handleDoubleClick
    dsimp only
    rw [if_pos hcond]
    norm_num [ZOOM_SCALE]

/-- C6 amended: when the current scale is within 0.2 of 1 the double
tap applies scale 2 with the pre-constraint translate
newX = cX - (cX - oldX) * 2 (the midpoint formula evaluated as if the
old scale were exactly 1, so the tapped document point is preserved
exactly only when the starting scale is 1), constrains it and emits
scale-change 2; otherwise resetPosition applies scale 1 and translate
(0, 0) exactly and emits scale-change 1; in particular two consecutive
double-taps at the same point starting from scale 1 and translate
(0, 0) end at exactly scale 1 and translate (0, 0). -/
theorem handleDoubleClick_amended (st : TransformState) (tapX tapY : ℚ)
    (rect : Rect) (constrain : ℚ → ℚ → ℚ × ℚ) :
    (|st.scale - 1| < SCALE_THRESHOLD →
      (handleDoubleClick st tapX tapY rect constrain).state.scale = 2 ∧
      (handleDoubleClick st tapX tapY rect constrain).preX
        = (tapX - rect.left) - ((tapX - rect.left) - st.translateX) * 2 ∧
      (handleDoubleClick st tapX tapY rect constrain).preY
        = (tapY - rect.top) - ((tapY - rect.top) - st.translateY) * 2 ∧
      ((handleDoubleClick st tapX tapY rect constrain).state.translateX,
        (handleDoubleClick st tapX tapY rect constrain).state.translateY)
        = constrain (handleDoubleClick st tapX tapY rect constrain).preX
            (handleDoubleClick st tapX tapY rect constrain).preY ∧
      (handleDoubleClick st tapX tapY rect constrain).scaleChangeEvents = [2]) ∧
    (st.scale = 1 →
      (tapX - rect.left) - (handleDoubleClick st tapX tapY rect constrain).preX
        = ((tapX - rect.left) - st.translateX) * 2) ∧
    (¬ |st.scale - 1| < SCALE_THRESHOLD →
      (handleDoubleClick st tapX tapY rect constrain).state
          = { scale := 1, translateX := 0, translateY := 0 } ∧
      (handleDoubleClick st tapX tapY rect constrain).scaleChangeEvents = [1]) ∧
    (st = { scale := 1, translateX := 0, translateY := 0 } →
      (handleDoubleClick st tapX tapY rect constrain).state.scale = 2 ∧
      (handleDoubleClick
          (handleDoubleClick st tapX tapY rect constrain).state
          tapX tapY rect constrain).state
        = { scale := 1, translateX := 0, translateY := 0 }) := by
  refine ⟨fun h => ?_, fun h => ?_, fun h => ?_, fun h => ?_⟩
  · unfold handleDoubleClick
    dsimp only
    rw [if_pos h]
    exact ⟨rfl, rfl, rfl, rfl, rfl⟩
  · have hnorm : |st.scale - 1| < SCALE_THRESHOLD := by
      rw [h]
      norm_num [SCALE_THRESHOLD]
    unfold handleDoubleClick
    dsimp only
    rw [if_pos hnorm]
    simp only [ZOOM_SCALE]
    ring
  · unfold handleDoubleClick
    dsimp only
    rw [if_neg h]
    exact ⟨rfl, rfl⟩
  · subst h
    have h1 : |(1 : ℚ) - 1| < SCALE_THRESHOLD := by norm_num [SCALE_THRESHOLD]
    have hfirst : (handleDoubleClick ⟨1, 0, 0⟩ tapX tapY rect constrain).state.scale
        = 2 := by
      unfold handleDoubleClick
      dsimp only
      rw [if_pos h1]
      rfl
    refine ⟨hfirst, ?_⟩
    set s2 : TransformState :=
      (handleDoubleClick ⟨1, 0, 0⟩ tapX tapY rect constrain).state with hs2
    have h2 : ¬ |s2.scale - 1| < SCALE_THRESHOLD := by
      rw [hs2, hfirst]
      norm_num [SCALE_THRESHOLD]
    unfold handleDoubleClick
    dsimp only
    rw [if_neg h2]

/-- Witness for C6 amended at a double-tap on (10, 7) over a rect at
the origin, starting from scale 1 and the origin translate with an
identity constrain. -/
theorem handleDoubleClick_amended_witness :
    (handleDoubleClick ⟨1, 0, 0⟩ 10 7 ⟨0, 0⟩ (fun x y => (x, y))).state.scale = 2 ∧
    (handleDoubleClick ⟨1, 0, 0⟩ 10 7 ⟨0, 0⟩ (fun x y => (x, y))).preX
      = (10 - 0) - ((10 - 0) - 0) * 2 ∧
    (10 - 0) - (handleDoubleClick ⟨1, 0, 0⟩ 10 7 ⟨0, 0⟩ (fun x y => (x, y))).preX
      = ((10 - 0) - 0) * 2 ∧
    (handleDoubleClick
        (handleDoubleClick ⟨1, 0, 0⟩ 10 7 ⟨0, 0⟩ (fun x y => (x, y))).state
        10 7 ⟨0, 0⟩ (fun x y => (x, y))).state
      = { scale := 1, translateX := 0, translateY := 0 } := by
  obtain ⟨hzoom, hmid, -, htoggle⟩ :=
    handleDoubleClick_amended ⟨1, 0, 0⟩ 10 7 ⟨0, 0⟩ (fun x y => (x, y))
  refine ⟨(hzoom (by norm_num [SCALE_THRESHOLD])).1,
    (hzoom (by norm_num [SCALE_THRESHOLD])).2.1,
    hmid rfl, (htoggle rfl).2⟩

/-- Invariant of the animation loop: a state whose next frame is not
scheduled has zero velocity (stopInertialScroll zeroes both
components when it cancels the frame). -/
def GoodInertia (s : InertiaState) : Prop :=
  s.running = false → s.vx = 0 ∧ s.vy = 0

/-- Position-in-limits predicate for the animation state. -/
def InBox (b : BoundaryLimits) (s : InertiaState) : Prop :=
  b.minX ≤ s.x ∧ s.x ≤ b.maxX ∧ b.minY ≤ s.y ∧ s.y ≤ b.maxY

lemma animationStep_not_running (dampingFactor : ℚ) (b : BoundaryLimits)
    (s : InertiaState) (h : s.running = false) :
    animationStep dampingFactor b s = s := by
  unfold animationStep
  rw [h]
  rfl

lemma animationStep_cases (dampingFactor : ℚ) (b : BoundaryLimits)
    (s : InertiaState) (hr : s.running = true) :
    ((animationStep dampingFactor b s).running = false ∧
      (animationStep dampingFactor b s).vx = 0 ∧
      (animationStep dampingFactor b s).vy = 0) ∨
    ((animationStep dampingFactor b s).running = true ∧
      ¬ (|(animationStep dampingFactor b s).vx| < 1/10 ∧
          |(animationStep dampingFactor b s).vy| < 1/10) ∧
      ((animationStep dampingFactor b s).vx = 0 ∨
        (animationStep dampingFactor b s).vx = s.vx * dampingFactor) ∧
      ((animationStep dampingFactor b s).vy = 0 ∨
        (animationStep dampingFactor b s).vy = s.vy * dampingFactor)) := by
  unfold animationStep
  rw [if_pos hr]
  dsimp only
  split_ifs with hA hB hC <;> simp_all

lemma animationStep_pos (dampingFactor : ℚ) (b : BoundaryLimits)
    (s : InertiaState) (hr : s.running = true) :
    (animationStep dampingFactor b s).x
        = (constrainTranslate (s.x + s.vx) (s.y + s.vy) b).1 ∧
    (animationStep dampingFactor b s).y
        = (constrainTranslate (s.x + s.vx) (s.y + s.vy) b).2 := by
  unfold animationStep
  rw [if_pos hr]
  dsimp only
  split_ifs <;> exact ⟨rfl, rfl⟩

lemma animationStep_good (dampingFactor : ℚ) (b : BoundaryLimits)
    (s : InertiaState) (hs : GoodInertia s) :
    GoodInertia (animationStep dampingFactor b s) := by
  by_cases hr : s.running = true
  · rcases animationStep_cases dampingFactor b s hr with ⟨-, hx, hy⟩ | ⟨hrun, -, -, -⟩
    · intro _
      exact ⟨hx, hy⟩
    · intro hf
      rw [hf] at hrun
      cases hrun
  · have hr0 : s.running = false := by
      cases hb : s.running
      · rfl
      · exact absurd hb hr
    rw [animationStep_not_running dampingFactor b s hr0]
    exact hs

lemma animationStep_decay (dampingFactor : ℚ) (b : BoundaryLimits)
    (s : InertiaState) (hd : 0 ≤ dampingFactor) (hs : GoodInertia s) :
    |(animationStep dampingFactor b s).vx| ≤ dampingFactor * |s.vx| ∧
    |(animationStep dampingFactor b s).vy| ≤ dampingFactor * |s.vy| := by
  have hzero : ∀ v : ℚ, |(0 : ℚ)| ≤ dampingFactor * |v| := by
    intro v
    rw [abs_zero]
    exact mul_nonneg hd (abs_nonneg v)
  have hdamp : ∀ v : ℚ, |v * dampingFactor| ≤ dampingFactor * |v| := by
    intro v
    rw [abs_mul, abs_of_nonneg hd, mul_comm]
  by_cases hr : s.running = true
  · rcases animationStep_cases dampingFactor b s hr with
      ⟨-, hx, hy⟩ | ⟨-, -, hx | hx, hy | hy⟩ <;>
      rw [hx, hy] <;>
      exact ⟨by first | exact hzero s.vx | exact hdamp s.vx,
        by first | exact hzero s.vy | exact hdamp s.vy⟩
  · have hr0 : s.running = false := by
      cases hb : s.running
      · rfl
      · exact absurd hb hr
    rw [animationStep_not_running dampingFactor b s hr0]
    obtain ⟨hvx, hvy⟩ := hs hr0
    rw [hvx, hvy]
    exact ⟨hzero 0, hzero 0⟩

lemma animationStep_iterate_decay (dampingFactor : ℚ) (b : BoundaryLimits)
    (hd : 0 ≤ dampingFactor) (s : InertiaState) (hs : GoodInertia s) (n : Nat) :
    |((animationStep dampingFactor b)^[n] s).vx| ≤ dampingFactor ^ n * |s.vx| ∧
    |((animationStep dampingFactor b)^[n] s).vy| ≤ dampingFactor ^ n * |s.vy| ∧
    GoodInertia ((animationStep dampingFactor b)^[n] s) := by
  induction n with
  | zero =>
    simpa using hs
  | succ n ih =>
    obtain ⟨hx, hy, hg⟩ := ih
    rw [Function.iterate_succ_apply']
    obtain ⟨hdx, hdy⟩ := animationStep_decay dampingFactor b _ hd hg
    refine ⟨le_trans hdx ?_, le_trans hdy ?_, animationStep_good _ _ _ hg⟩
    · calc dampingFactor * |((animationStep dampingFactor b)^[n] s).vx|
          ≤ dampingFactor * (dampingFactor ^ n * |s.vx|) :=
            mul_le_mul_of_nonneg_left hx hd
        _ = dampingFactor ^ (n + 1) * |s.vx| := by ring
    · calc dampingFactor * |((animationStep dampingFactor b)^[n] s).vy|
          ≤ dampingFactor * (dampingFactor ^ n * |s.vy|) :=
            mul_le_mul_of_nonneg_left hy hd
        _ = dampingFactor ^ (n + 1) * |s.vy| := by ring

lemma animationStep_running_large (dampingFactor : ℚ) (b : BoundaryLimits)
    (t : InertiaState) :
    (animationStep dampingFactor b t).running = true →
    ¬ (|(animationStep dampingFactor b t).vx| < 1/10 ∧
        |(animationStep dampingFactor b t).vy| < 1/10) := by
  intro hrun
  by_cases hr : t.running = true
  · rcases animationStep_cases dampingFactor b t hr with ⟨hfalse, -, -⟩ | ⟨-, hbig, -, -⟩
    · rw [hfalse] at hrun
      cases hrun
    · exact hbig
  · have hr0 : t.running = false := by
      cases hb : t.running
      · rfl
      · exact absurd hb hr
    rw [animationStep_not_running dampingFactor b t hr0, hr0] at hrun
    cases hrun

lemma animationStep_inBox_of_running (dampingFactor : ℚ) (b : BoundaryLimits)
    (s : InertiaState) (hbx : b.minX ≤ b.maxX) (hby : b.minY ≤ b.maxY)
    (hr : s.running = true) :
    InBox b (animationStep dampingFactor b s) := by
  obtain ⟨hx, hy⟩ := animationStep_pos dampingFactor b s hr
  unfold InBox
  rw [hx, hy]
  unfold constrainTranslate
  exact ⟨(clamp_le_bounds _ _ _ hbx).1, (clamp_le_bounds _ _ _ hbx).2,
    (clamp_le_bounds _ _ _ hby).1, (clamp_le_bounds _ _ _ hby).2⟩

lemma animationStep_inBox_preserved (dampingFactor : ℚ) (b : BoundaryLimits)
    (s : InertiaState) (hbx : b.minX ≤ b.maxX) (hby : b.minY ≤ b.maxY)
    (h : InBox b s) :
    InBox b (animationStep dampingFactor b s) := by
  by_cases hr : s.running = true
  · exact animationStep_inBox_of_running dampingFactor b s hbx hby hr
  · have hr0 : s.running = false := by
      cases hb : s.running
      · rfl
      · exact absurd hb hr
    rw [animationStep_not_running dampingFactor b s hr0]
    exact h

lemma animationStep_iterate_inBox (dampingFactor : ℚ) (b : BoundaryLimits)
    (hbx : b.minX ≤ b.maxX) (hby : b.minY ≤ b.maxY) (s : InertiaState)
    (h : InBox b s) (n : Nat) :
    InBox b ((animationStep dampingFactor b)^[n] s) := by
  induction n with
  | zero => simpa using h
  | succ n ih =>
    rw [Function.iterate_succ_apply']
    exact animationStep_inBox_preserved dampingFactor b _ hbx hby ih

/-- C5: a running inertial-scroll animation with damping factor in
[0, 1) and ordered boundary limits terminates: after any number of
frames n with dampingFactor ^ n * |v0| below the 0.1 px per frame
threshold on both axes (the power form of the claimed bound
n > log(0.1 / |v0|) / log(dampingFactor)), the animation has cancelled
its next frame, both velocity components are exactly zero and the
final position lies inside the boundary limits. Each frame moves by
the current velocity, clamps through constrainTranslate, zeroes the
velocity of any axis the clamp altered, and damps the rest, exactly
as in the embedded animationStep. -/
theorem inertialScroll_terminates (dampingFactor : ℚ) (b : BoundaryLimits)
    (s : InertiaState) (n : Nat)
    (hd0 : 0 ≤ dampingFactor)
    (hrun : s.running = true)
    (hbx : b.minX ≤ b.maxX) (hby : b.minY ≤ b.maxY)
    (hn : 1 ≤ n)
    (hvx : dampingFactor ^ n * |s.vx| < 1/10)
    (hvy : dampingFactor ^ n * |s.vy| < 1/10) :
    ((animationStep dampingFactor b)^[n] s).running = false ∧
    ((animationStep dampingFactor b)^[n] s).vx = 0 ∧
    ((animationStep dampingFactor b)^[n] s).vy = 0 ∧
    InBox b ((animationStep dampingFactor b)^[n] s) := by
  have hgood : GoodInertia s := by
    intro hf
    rw [hf] at hrun
    cases hrun
  obtain ⟨hx, hy, hg⟩ := animationStep_iterate_decay dampingFactor b hd0 s hgood n
  have hsmallx : |((animationStep dampingFactor b)^[n] s).vx| < 1/10 :=
    lt_of_le_of_lt hx hvx
  have hsmally : |((animationStep dampingFactor b)^[n] s).vy| < 1/10 :=
    lt_of_le_of_lt hy hvy
  obtain ⟨m, rfl⟩ : ∃ m, n = m + 1 := ⟨n - 1, by omega⟩
  have hstopped : ((animationStep dampingFactor b)^[m + 1] s).running = false := by
    by_contra hT
    have hT2 : ((animationStep dampingFactor b)^[m + 1] s).running = true := by
      cases hb2 : ((animationStep dampingFactor b)^[m + 1] s).running
      · exact absurd hb2 hT
      · rfl
    rw [Function.iterate_succ_apply'] at hT2 hsmallx hsmally
    exact animationStep_running_large dampingFactor b _ hT2 ⟨hsmallx, hsmally⟩
  obtain ⟨hzx, hzy⟩ := hg hstopped
  refine ⟨hstopped, hzx, hzy, ?_⟩
  rw [Function.iterate_succ_apply]
  exact animationStep_iterate_inBox dampingFactor b hbx hby _
    (animationStep_inBox_of_running dampingFactor b s hbx hby hrun) m

/-- Witness for C5: damping 9/10, boundary record (-100, 50, -200, 50),
start position (3, 4) with velocity (5, -3) and a scheduled frame;
after 38 frames (and (9/10) ^ 38 * 5 < 1/10) the animation has stopped
with zero velocity inside the limits. -/
theorem inertialScroll_terminates_witness :
    ((animationStep (9/10) ⟨-100, 50, -200, 50⟩)^[38] ⟨3, 4, 5, -3, true⟩).running
      = false ∧
    ((animationStep (9/10) ⟨-100, 50, -200, 50⟩)^[38] ⟨3, 4, 5, -3, true⟩).vx = 0 ∧
    ((animationStep (9/10) ⟨-100, 50, -200, 50⟩)^[38] ⟨3, 4, 5, -3, true⟩).vy = 0 ∧
    InBox ⟨-100, 50, -200, 50⟩
      ((animationStep (9/10) ⟨-100, 50, -200, 50⟩)^[38] ⟨3, 4, 5, -3, true⟩) :=
  inertialScroll_terminates (9/10) ⟨-100, 50, -200, 50⟩ ⟨3, 4, 5, -3, true⟩ 38
    (by norm_num) rfl (by norm_num) (by norm_num) (by norm_num)
    (by rw [abs_of_nonneg (by norm_num)]; norm_num)
    (by rw [abs_of_nonpos (by norm_num)]; norm_num)

end MobilePDF
